import Mathlib

/-!
Verification development for the frame-lifecycle and presentation-synchronization
subsystem of the `engine` repository (Rust, Vulkan via `ash`).

Shallow embedding strategy: every Vulkan device call is modelled as a pure
transition on an explicit `DeviceState` that records the call in an event
trace.  Handles (semaphores, fences, images, image views, swapchains, command
buffers) are natural numbers allocated from a monotone counter, mirroring the
fact that the driver returns fresh distinct handles.  Fences carry an explicit
"signaled" set: `create_fence` with the SIGNALED flag inserts the handle,
`reset_fences` removes it, and `queue_submit` inserts the submission fence —
this last point abstracts GPU asynchrony: in the single-threaded driver model,
work submitted earlier is considered complete (its fence signaled) by the time
any later unbounded CPU-side fence wait returns, which is exactly what the
unbounded `wait_for_fences` calls in the source guarantee.  `wait_for_fences`
itself records, in its trace event, whether every waited fence was already
signaled at call time.

The embedded definitions mirror, statement by statement:
  - `src/engine/src/renderer/sync.rs`       (`FrameSynchronizer`)
  - `src/engine/src/renderer/swapchain.rs`  (`Swapchain`)
  - `src/engine/src/renderer/command_pool.rs` (`CommandPool::new`)
  - `src/engine/src/renderer/renderer.rs`   (`RenderContext`, `Renderer`,
    `RenderFrame` and its `Drop` impl)
Floating-point payloads that no statement depends on (clear colors, the
unused `scale_factor` parameter of `handle_resize`) are omitted; the
projection matrix is modelled symbolically as the arguments passed to
`glam::Mat4::orthographic_rh`.  The shader/pipeline subsystem
(`PipelineManager`, `ShaderManager`) is not referenced by anything proved
here and is left out of the `Renderer` record.
-/

namespace Engine

/-- `vk::Extent2D`. -/
structure Extent2D where
  width : Nat
  height : Nat
deriving DecidableEq, Repr

/-- The `vk::ImageLayout` values used by the renderer. -/
inductive ImageLayout where
  | undefined
  | colorAttachmentOptimal
  | presentSrcKhr
deriving DecidableEq, Repr

/-- The `vk::PipelineStageFlags` values used by the renderer. -/
inductive PipelineStage where
  | topOfPipe
  | colorAttachmentOutput
  | bottomOfPipe
deriving DecidableEq, Repr

/-- The `vk::AccessFlags` values used by `RenderContext::transition_image`. -/
inductive AccessFlags where
  | empty
  | colorAttachmentWrite
deriving DecidableEq, Repr

/-- One recorded Vulkan device/queue call.  Handles are `Nat`. -/
inductive GpuEvent where
  | createSemaphore (handle : Nat)
  | createFence (handle : Nat) (signaled : Bool)
  | waitForFences (fences : List Nat) (allSignaledAtCall : Bool)
  | resetFences (fences : List Nat)
  | deviceWaitIdle
  | acquireNextImage (swapchain : Nat) (semaphore : Nat)
  | queueSubmit (queue : Nat) (waitSemaphores : List Nat)
      (commandBuffers : List Nat) (signalSemaphores : List Nat) (fence : Nat)
  | queuePresent (queue : Nat) (waitSemaphores : List Nat)
      (swapchains : List Nat) (imageIndices : List Nat)
  | resetCommandBuffer (cb : Nat)
  | beginCommandBuffer (cb : Nat)
  | endCommandBuffer (cb : Nat)
  | pipelineBarrier (cb : Nat) (image : Nat)
      (oldLayout newLayout : ImageLayout)
      (srcAccess dstAccess : AccessFlags)
      (srcStage dstStage : PipelineStage)
  | beginRendering (cb : Nat) (imageView : Nat)
  | endRendering (cb : Nat)
  | setViewport (cb : Nat) (width height : Nat)
  | setScissor (cb : Nat) (width height : Nat)
  | createSwapchain (handle : Nat) (oldSwapchain : Nat) (extent : Extent2D)
  | destroySwapchain (handle : Nat)
  | createImageView (handle : Nat) (image : Nat)
  | destroyImageView (handle : Nat)
deriving DecidableEq, Repr

/-- The modelled Vulkan device: a fresh-handle counter, the set of currently
signaled fences, the driver's (fixed) swapchain image count, the graphics
queue handle, and the trace of calls issued so far. -/
structure DeviceState where
  nextHandle : Nat
  signaledFences : List Nat
  swapchainImageCount : Nat
  graphicsQueue : Nat
  trace : List GpuEvent
deriving DecidableEq, Repr

/-- `vk::SwapchainKHR::null()` / a null handle. -/
def nullHandle : Nat := 0

namespace DeviceState

/-- `device.create_semaphore` — returns a fresh handle. -/
def create_semaphore (d : DeviceState) : Nat × DeviceState :=
  (d.nextHandle,
   { d with nextHandle := d.nextHandle + 1,
            trace := d.trace ++ [.createSemaphore d.nextHandle] })

/-- `device.create_fence`; `signaled` is whether `FenceCreateFlags::SIGNALED`
was passed. -/
def create_fence (d : DeviceState) (signaled : Bool) : Nat × DeviceState :=
  (d.nextHandle,
   { d with nextHandle := d.nextHandle + 1,
            signaledFences :=
              if signaled then d.nextHandle :: d.signaledFences
              else d.signaledFences,
            trace := d.trace ++ [.createFence d.nextHandle signaled] })

/-- Whether every fence in the list is currently signaled. -/
def allSignaled (d : DeviceState) (fences : List Nat) : Bool :=
  fences.all fun f => d.signaledFences.contains f

/-- `device.wait_for_fences(fences, true, u64::MAX)` — an unbounded wait,
which in this single-threaded model always succeeds; the event records
whether the wait found every fence already signaled. -/
def wait_for_fences (d : DeviceState) (fences : List Nat) : DeviceState :=
  { d with trace := d.trace ++ [.waitForFences fences (d.allSignaled fences)] }

/-- `device.reset_fences(fences)` — moves the fences to the unsignaled state. -/
def reset_fences (d : DeviceState) (fences : List Nat) : DeviceState :=
  { d with signaledFences := d.signaledFences.filter fun f => !(fences.contains f),
           trace := d.trace ++ [.resetFences fences] }

/-- `device.device_wait_idle()`. -/
def device_wait_idle (d : DeviceState) : DeviceState :=
  { d with trace := d.trace ++ [.deviceWaitIdle] }

/-- `swapchain_loader.acquire_next_image` — the outcome is chosen by the
environment (the window system); the model threads it in as an input. -/
def acquire_next_image (d : DeviceState) (swapchain : Nat) (semaphore : Nat) :
    DeviceState :=
  { d with trace := d.trace ++ [.acquireNextImage swapchain semaphore] }

/-- `device.queue_submit(queue, submits, fence)`.  The submission's fence is
marked signaled: in this single-threaded model the GPU work of a submission
is complete before any later unbounded fence wait returns. -/
def queue_submit (d : DeviceState) (queue : Nat) (waitSemaphores : List Nat)
    (commandBuffers : List Nat) (signalSemaphores : List Nat) (fence : Nat) :
    DeviceState :=
  { d with signaledFences := fence :: d.signaledFences,
           trace := d.trace ++
             [.queueSubmit queue waitSemaphores commandBuffers signalSemaphores fence] }

/-- `swapchain_loader.queue_present(queue, present_info)`. -/
def queue_present (d : DeviceState) (queue : Nat) (waitSemaphores : List Nat)
    (swapchains : List Nat) (imageIndices : List Nat) : DeviceState :=
  { d with trace := d.trace ++
      [.queuePresent queue waitSemaphores swapchains imageIndices] }

/-- `device.reset_command_buffer(cb, RELEASE_RESOURCES)`. -/
def reset_command_buffer (d : DeviceState) (cb : Nat) : DeviceState :=
  { d with trace := d.trace ++ [.resetCommandBuffer cb] }

/-- `device.begin_command_buffer(cb, ONE_TIME_SUBMIT)`. -/
def begin_command_buffer (d : DeviceState) (cb : Nat) : DeviceState :=
  { d with trace := d.trace ++ [.beginCommandBuffer cb] }

/-- `device.end_command_buffer(cb)`. -/
def end_command_buffer (d : DeviceState) (cb : Nat) : DeviceState :=
  { d with trace := d.trace ++ [.endCommandBuffer cb] }

/-- `swapchain_loader.create_swapchain(create_info)`; the create-info fields
relevant to the statements proved here are the old-swapchain handle and the
image extent, which the event records. -/
def create_swapchain (d : DeviceState) (oldSwapchain : Nat) (extent : Extent2D) :
    Nat × DeviceState :=
  (d.nextHandle,
   { d with nextHandle := d.nextHandle + 1,
            trace := d.trace ++ [.createSwapchain d.nextHandle oldSwapchain extent] })

/-- `swapchain_loader.get_swapchain_images(swapchain)` — the driver reports
`swapchainImageCount` images (its choice of count, fixed in the model). -/
def get_swapchain_images (d : DeviceState) : List Nat × DeviceState :=
  ((List.range d.swapchainImageCount).map fun j => d.nextHandle + j,
   { d with nextHandle := d.nextHandle + d.swapchainImageCount })

/-- `device.create_image_view(create_info)` for a given image. -/
def create_image_view (d : DeviceState) (image : Nat) : Nat × DeviceState :=
  (d.nextHandle,
   { d with nextHandle := d.nextHandle + 1,
            trace := d.trace ++ [.createImageView d.nextHandle image] })

/-- `device.destroy_image_view(view)`. -/
def destroy_image_view (d : DeviceState) (view : Nat) : DeviceState :=
  { d with trace := d.trace ++ [.destroyImageView view] }

/-- `swapchain_loader.destroy_swapchain(handle)`. -/
def destroy_swapchain (d : DeviceState) (handle : Nat) : DeviceState :=
  { d with trace := d.trace ++ [.destroySwapchain handle] }

/-- `device.get_device_queue(queue_family_index, 0)` — the model has a single
graphics-capable queue. -/
def get_device_queue (d : DeviceState) (_queueFamilyIndex _queueIndex : Nat) : Nat :=
  d.graphicsQueue

end DeviceState

/-! ## FrameSynchronizer — `src/engine/src/renderer/sync.rs` -/

/-- `FrameSynchronizer` (sync.rs:6-17): per-frame acquire semaphores and
in-flight fences, per-image render-finished semaphores, and the owner fence
of each swapchain image. -/
structure FrameSynchronizer where
  image_available_semaphores : List Nat
  render_finished_semaphores : List Nat
  in_flight_fences : List Nat
  images_in_flight : List (Option Nat)
  max_frames_in_flight : Nat
deriving DecidableEq, Repr

/-- The per-frame loop of `FrameSynchronizer::new` (sync.rs:29-47): for each
frame in flight, create one acquire semaphore and one fence with the
SIGNALED creation flag. -/
def createPerFrameSyncObjects : Nat → DeviceState → List Nat × List Nat × DeviceState
  | 0, d => ([], [], d)
  | Nat.succ n, d =>
    let (image_available, d1) := d.create_semaphore
    let (fence, d2) := d1.create_fence true
    let (sems, fences, d3) := createPerFrameSyncObjects n d2
    (image_available :: sems, fence :: fences, d3)

/-- The per-image loop of `FrameSynchronizer::new` (sync.rs:50-58): one
render-finished semaphore per swapchain image. -/
def createPerImageSemaphores : Nat → DeviceState → List Nat × DeviceState
  | 0, d => ([], d)
  | Nat.succ n, d =>
    let (render_finished, d1) := d.create_semaphore
    let (rest, d2) := createPerImageSemaphores n d1
    (render_finished :: rest, d2)

/-- `FrameSynchronizer::new` (sync.rs:23-71). -/
def FrameSynchronizer.new (d : DeviceState)
    (max_frames_in_flight swapchain_image_count : Nat) :
    FrameSynchronizer × DeviceState :=
  let (image_available_semaphores, in_flight_fences, d1) :=
    createPerFrameSyncObjects max_frames_in_flight d
  let (render_finished_semaphores, d2) :=
    createPerImageSemaphores swapchain_image_count d1
  ({ image_available_semaphores := image_available_semaphores,
     render_finished_semaphores := render_finished_semaphores,
     in_flight_fences := in_flight_fences,
     images_in_flight := List.replicate swapchain_image_count none,
     max_frames_in_flight := max_frames_in_flight }, d2)

/-- `FrameSynchronizer::wait_for_frame` (sync.rs:74-80): unbounded wait on the
frame's in-flight fence.  In the model the wait always succeeds (the source
returns `Err` only on device failure). -/
def FrameSynchronizer.wait_for_frame (s : FrameSynchronizer) (frame_index : Nat)
    (d : DeviceState) : DeviceState :=
  d.wait_for_fences [s.in_flight_fences.getD frame_index 0]

/-- `FrameSynchronizer::reset_fence` (sync.rs:83-89). -/
def FrameSynchronizer.reset_fence (s : FrameSynchronizer) (frame_index : Nat)
    (d : DeviceState) : DeviceState :=
  d.reset_fences [s.in_flight_fences.getD frame_index 0]

/-- `FrameSynchronizer::get_fence` (sync.rs:92-94). -/
def FrameSynchronizer.get_fence (s : FrameSynchronizer) (frame_index : Nat) : Nat :=
  s.in_flight_fences.getD frame_index 0

/-- `FrameSynchronizer::get_acquire_semaphore` (sync.rs:97-99) — indexed by
frame slot. -/
def FrameSynchronizer.get_acquire_semaphore (s : FrameSynchronizer)
    (frame_index : Nat) : Nat :=
  s.image_available_semaphores.getD frame_index 0

/-- `FrameSynchronizer::get_render_finished_semaphore` (sync.rs:102-104) —
indexed by swapchain image, not by frame slot. -/
def FrameSynchronizer.get_render_finished_semaphore (s : FrameSynchronizer)
    (image_index : Nat) : Nat :=
  s.render_finished_semaphores.getD image_index 0

/-! ## Swapchain — `src/engine/src/renderer/swapchain.rs` -/

/-- `vk::SurfaceFormatKHR`; `format` and `color_space` are the raw Vulkan
enum values. -/
structure SurfaceFormat where
  format : Nat
  color_space : Nat
deriving DecidableEq, Repr

/-- Raw value of `vk::Format::B8G8R8A8_SRGB`. -/
def FORMAT_B8G8R8A8_SRGB : Nat := 50

/-- Raw value of `vk::ColorSpaceKHR::SRGB_NONLINEAR`. -/
def COLOR_SPACE_SRGB_NONLINEAR : Nat := 0

/-- Raw value of `vk::PresentModeKHR::FIFO`. -/
def PRESENT_MODE_FIFO : Nat := 2

/-- `Swapchain` (swapchain.rs:4-17). -/
structure Swapchain where
  swapchain : Nat
  images : List Nat
  image_views : List Nat
  format : Nat
  extent : Extent2D
  surface : Nat
  surface_format : SurfaceFormat
  present_mode : Nat
  min_image_count : Nat
  queue_family_indices : List Nat
deriving DecidableEq, Repr

/-- The image-view creation loop of `create_swapchain_internal`
(swapchain.rs:143-171): one view per swapchain image, in order. -/
def createImageViews : List Nat → DeviceState → List Nat × DeviceState
  | [], d => ([], d)
  | image :: rest, d =>
    let (view, d1) := d.create_image_view image
    let (views, d2) := createImageViews rest d1
    (view :: views, d2)

/-- `Swapchain::create_swapchain_internal` (swapchain.rs:95-187). -/
def Swapchain.create_swapchain_internal (d : DeviceState)
    (surface_format : SurfaceFormat) (extent : Extent2D) (surface : Nat)
    (present_mode : Nat) (min_image_count : Nat)
    (queue_family_indices : List Nat) (old_swapchain : Nat) :
    Swapchain × DeviceState :=
  let (swapchain, d1) := d.create_swapchain old_swapchain extent
  let (images, d2) := d1.get_swapchain_images
  let (image_views, d3) := createImageViews images d2
  ({ swapchain := swapchain,
     images := images,
     image_views := image_views,
     format := surface_format.format,
     extent := extent,
     surface := surface,
     surface_format := surface_format,
     present_mode := present_mode,
     min_image_count := min_image_count,
     queue_family_indices := queue_family_indices }, d3)

/-- `Swapchain::new` (swapchain.rs:20-41): creation with a null old-swapchain
handle. -/
def Swapchain.new (d : DeviceState) (surface_format : SurfaceFormat)
    (extent : Extent2D) (surface : Nat) (present_mode : Nat)
    (min_image_count : Nat) (queue_family_indices : List Nat) :
    Swapchain × DeviceState :=
  Swapchain.create_swapchain_internal d surface_format extent surface
    present_mode min_image_count queue_family_indices nullHandle

/-- The old-view destruction loop at the end of `Swapchain::recreate`
(swapchain.rs:88-90). -/
def destroyImageViews : List Nat → DeviceState → DeviceState
  | [], d => d
  | view :: rest, d => destroyImageViews rest (d.destroy_image_view view)

/-- `Swapchain::recreate` (swapchain.rs:43-93): idle barrier; build the
replacement swapchain referencing the old handle; swap the visible state to
the new images/views/format/extent; idle barrier again; destroy the old
views and the old handle. -/
def Swapchain.recreate (s : Swapchain) (extent : Extent2D) (d : DeviceState) :
    Swapchain × DeviceState :=
  let d0 := d.device_wait_idle
  let old_swapchain := s.swapchain
  let old_image_views := s.image_views
  let (new_swapchain, d1) := Swapchain.create_swapchain_internal d0
    s.surface_format extent s.surface s.present_mode s.min_image_count
    s.queue_family_indices old_swapchain
  let s1 : Swapchain :=
    { s with swapchain := new_swapchain.swapchain,
             images := new_swapchain.images,
             image_views := new_swapchain.image_views,
             format := new_swapchain.format,
             extent := new_swapchain.extent }
  let d2 := d1.device_wait_idle
  let d3 := destroyImageViews old_image_views d2
  let d4 := d3.destroy_swapchain old_swapchain
  (s1, d4)

/-! ## CommandPool — `src/engine/src/renderer/command_pool.rs` -/

/-- `CommandPool` (command_pool.rs:4-7). -/
structure CommandPool where
  pool : Nat
  buffers : List Nat
deriving DecidableEq, Repr

/-- `CommandPool::new` (command_pool.rs:16-43): create the pool and allocate
`buffer_count` primary command buffers. -/
def CommandPool.new (d : DeviceState) (_queue_family_index : Nat)
    (buffer_count : Nat) : CommandPool × DeviceState :=
  let pool := d.nextHandle
  let d1 : DeviceState := { d with nextHandle := d.nextHandle + 1 }
  let buffers := (List.range buffer_count).map fun j => d1.nextHandle + j
  let d2 : DeviceState := { d1 with nextHandle := d1.nextHandle + buffer_count }
  ({ pool := pool, buffers := buffers }, d2)

/-! ## RenderContext, Renderer, RenderFrame — `src/engine/src/renderer/renderer.rs` -/

/-- `RenderContext` (renderer.rs:7-12): command-recording state handed to
draw-call issuers.  The `device` Arc is implicit (calls take the
`DeviceState`). -/
structure RenderContext where
  cmd_buffer : Nat
  extent : Extent2D
deriving DecidableEq, Repr

/-- The `src_access_mask` match of `RenderContext::transition_image`
(renderer.rs:67-71). -/
def srcAccessMaskFor : ImageLayout → AccessFlags
  | .undefined => .empty
  | .colorAttachmentOptimal => .colorAttachmentWrite
  | _ => .empty

/-- The `dst_access_mask` match of `RenderContext::transition_image`
(renderer.rs:72-76). -/
def dstAccessMaskFor : ImageLayout → AccessFlags
  | .colorAttachmentOptimal => .colorAttachmentWrite
  | .presentSrcKhr => .empty
  | _ => .empty

/-- `RenderContext::transition_image` (renderer.rs:55-95): a single
image-memory pipeline barrier. -/
def RenderContext.transition_image (ctx : RenderContext) (image : Nat)
    (old_layout new_layout : ImageLayout)
    (src_stage dst_stage : PipelineStage) (d : DeviceState) : DeviceState :=
  { d with trace := d.trace ++
      [.pipelineBarrier ctx.cmd_buffer image old_layout new_layout
        (srcAccessMaskFor old_layout) (dstAccessMaskFor new_layout)
        src_stage dst_stage] }

/-- `RenderContext::begin_rendering` (renderer.rs:24-45): begin dynamic
rendering into the view, then set the full viewport and scissor.  The
floating-point clear color carries no information used by any statement
here and is omitted from the event. -/
def RenderContext.begin_rendering (ctx : RenderContext) (image_view : Nat)
    (d : DeviceState) : DeviceState :=
  let d1 : DeviceState :=
    { d with trace := d.trace ++ [.beginRendering ctx.cmd_buffer image_view] }
  let d2 : DeviceState :=
    { d1 with trace := d1.trace ++
        [.setViewport ctx.cmd_buffer ctx.extent.width ctx.extent.height] }
  { d2 with trace := d2.trace ++
      [.setScissor ctx.cmd_buffer ctx.extent.width ctx.extent.height] }

/-- `RenderContext::end_rendering` (renderer.rs:48-52). -/
def RenderContext.end_rendering (ctx : RenderContext) (d : DeviceState) :
    DeviceState :=
  { d with trace := d.trace ++ [.endRendering ctx.cmd_buffer] }

/-- The projection matrix, modelled symbolically as the constructor call the
renderer performs (`glam::Mat4::IDENTITY` or
`glam::Mat4::orthographic_rh(0.0, w, 0.0, h, -1.0, 1.0)`). -/
inductive Projection where
  | identity
  | orthographicRh (left : Nat) (right : Nat) (bottom : Nat) (top : Nat)
      (zNear : Int) (zFar : Int)
deriving DecidableEq, Repr

/-- `Renderer` (renderer.rs:187-198).  The pipeline/shader managers are not
used by anything proved in this development and are omitted. -/
structure Renderer where
  swapchain : Swapchain
  command_pool : CommandPool
  frame_sync : FrameSynchronizer
  graphics_queue : Nat
  needs_rebuild : Bool
  current_frame : Nat
  projection : Projection
deriving DecidableEq, Repr

/-- `RenderFrame` (renderer.rs:396-408): the scoped frame handle returned by
`begin_frame`. -/
structure RenderFrame where
  render_ctx : RenderContext
  swapchain : Nat
  swapchain_image : Nat
  graphics_queue : Nat
  image_index : Nat
  cmd_buffer : Nat
  wait_semaphore : Nat
  signal_semaphore : Nat
  fence : Nat
deriving DecidableEq, Repr

/-- Outcome of `acquire_next_image` as matched by `begin_frame`
(renderer.rs:301-317): success with an index, `ERROR_OUT_OF_DATE_KHR`, or
any other error.  The outcome is an input from the environment. -/
inductive AcquireOutcome where
  | success (image_index : Nat)
  | errorOutOfDateKhr
  | otherError
deriving DecidableEq, Repr

/-- `Renderer::new` (renderer.rs:201-265).  The surface-format list is the
result of the external `get_physical_device_surface_formats` query; shader
compilation and pipeline building (renderer.rs:246-251) touch no state used
by any statement here and are omitted. -/
def Renderer.new (d : DeviceState) (surface_formats : List SurfaceFormat)
    (surface : Nat) (queue_family_indices : List Nat) (width height : Nat) :
    Renderer × DeviceState :=
  let surface_format :=
    ((surface_formats.find? fun fmt => fmt.format == FORMAT_B8G8R8A8_SRGB).or
      surface_formats.head?).getD
      { format := FORMAT_B8G8R8A8_SRGB, color_space := COLOR_SPACE_SRGB_NONLINEAR }
  let (swapchain, d1) := Swapchain.new d surface_format
    { width := width, height := height } surface PRESENT_MODE_FIFO 2
    queue_family_indices
  let max_frames_in_flight := 2
  let swapchain_image_count := swapchain.images.length
  let (command_pool, d2) :=
    CommandPool.new d1 (queue_family_indices.getD 0 0) max_frames_in_flight
  let (frame_sync, d3) :=
    FrameSynchronizer.new d2 max_frames_in_flight swapchain_image_count
  let graphics_queue := d3.get_device_queue (queue_family_indices.getD 0 0) 0
  ({ swapchain := swapchain,
     command_pool := command_pool,
     frame_sync := frame_sync,
     graphics_queue := graphics_queue,
     needs_rebuild := false,
     current_frame := 0,
     projection := .identity }, d3)

/-- `Renderer::handle_resize` (renderer.rs:267-285): recreate the swapchain
only when both dimensions are positive and the size actually changed; always
rebuild the orthographic projection from the given width and height.  The
`scale_factor` parameter is unused by the source body and omitted. -/
def Renderer.handle_resize (r : Renderer) (width height : Nat)
    (d : DeviceState) : Renderer × DeviceState :=
  let (r1, d1) :=
    if 0 < width ∧ 0 < height ∧
        (width ≠ r.swapchain.extent.width ∨ height ≠ r.swapchain.extent.height) then
      let (sc, d1) := r.swapchain.recreate { width := width, height := height } d
      ({ r with swapchain := sc }, d1)
    else (r, d)
  ({ r1 with projection := .orthographicRh 0 width 0 height (-1) 1 }, d1)

/-- `Renderer::begin_frame` (renderer.rs:287-384).  `acquire_result` is the
environment's answer to the `acquire_next_image` call.  Returns the optional
frame handle, the updated renderer, and the updated device. -/
def Renderer.begin_frame (r : Renderer) (d : DeviceState)
    (acquire_result : AcquireOutcome) :
    Option RenderFrame × Renderer × DeviceState :=
  -- Handle swapchain rebuild if needed (renderer.rs:289-292): the flag is
  -- cleared and the call returns `None`; no recreate is performed here.
  if r.needs_rebuild then
    (none, { r with needs_rebuild := false }, d)
  else
    let d := r.frame_sync.wait_for_frame r.current_frame d
    let image_available_sem := r.frame_sync.get_acquire_semaphore r.current_frame
    let d := d.acquire_next_image r.swapchain.swapchain image_available_sem
    match acquire_result with
    | .errorOutOfDateKhr => (none, { r with needs_rebuild := true }, d)
    | .otherError => (none, r, d)
    | .success image_index =>
      let render_finished_sem :=
        r.frame_sync.get_render_finished_semaphore image_index
      -- Check if this image is still being used by a previous frame
      -- (renderer.rs:323-327)
      let d :=
        match r.frame_sync.images_in_flight.getD image_index none with
        | some image_fence => d.wait_for_fences [image_fence]
        | none => d
      -- Mark this image as in use by this frame (renderer.rs:330)
      let owned := some (r.frame_sync.get_fence r.current_frame)
      let frame_sync :=
        { r.frame_sync with images_in_flight :=
            r.frame_sync.images_in_flight.set image_index owned }
      let d := frame_sync.reset_fence r.current_frame d
      let cmd_buffer := r.command_pool.buffers.getD r.current_frame 0
      let d := d.reset_command_buffer cmd_buffer
      let d := d.begin_command_buffer cmd_buffer
      let render_ctx : RenderContext :=
        { cmd_buffer := cmd_buffer, extent := r.swapchain.extent }
      let d := render_ctx.transition_image (r.swapchain.images.getD image_index 0)
        .undefined .colorAttachmentOptimal .topOfPipe .colorAttachmentOutput d
      let d := render_ctx.begin_rendering
        (r.swapchain.image_views.getD image_index 0) d
      let frame : RenderFrame :=
        { render_ctx := render_ctx,
          swapchain := r.swapchain.swapchain,
          swapchain_image := r.swapchain.images.getD image_index 0,
          graphics_queue := r.graphics_queue,
          image_index := image_index,
          cmd_buffer := cmd_buffer,
          wait_semaphore := image_available_sem,
          signal_semaphore := render_finished_sem,
          fence := frame_sync.get_fence r.current_frame }
      -- Advance to next frame, modulo max_frames_in_flight (renderer.rs:381)
      let r1 : Renderer :=
        { r with frame_sync := frame_sync,
                 current_frame :=
                   (r.current_frame + 1) % frame_sync.max_frames_in_flight }
      (some frame, r1, d)

/-- `impl Drop for RenderFrame` (renderer.rs:433-471): releasing the handle
ends the rendering pass, transitions the image to the presentable layout,
ends recording, submits waiting on the acquire semaphore and signaling the
render-finished semaphore and the slot fence, then presents waiting on that
same semaphore.  This is the only release path: `RenderFrame` has no other
methods (renderer.rs:410-411). -/
def RenderFrame.drop (f : RenderFrame) (d : DeviceState) : DeviceState :=
  let d := f.render_ctx.end_rendering d
  let d := f.render_ctx.transition_image f.swapchain_image
    .colorAttachmentOptimal .presentSrcKhr
    .colorAttachmentOutput .bottomOfPipe d
  let d := d.end_command_buffer f.cmd_buffer
  let d := d.queue_submit f.graphics_queue [f.wait_semaphore] [f.cmd_buffer]
    [f.signal_semaphore] f.fence
  d.queue_present f.graphics_queue [f.signal_semaphore] [f.swapchain]
    [f.image_index]

/-! ## Drivers: the external event loop as exercised by the spec's scenarios -/

/-- One `begin_frame`/release cycle: the driver drops the handle immediately
after (recording is external and emits no synchronization calls). -/
def renderCycle (r : Renderer) (d : DeviceState) (a : AcquireOutcome) :
    Renderer × DeviceState :=
  match (r.begin_frame d a).1 with
  | some f => ((r.begin_frame d a).2.1, f.drop (r.begin_frame d a).2.2)
  | none => ((r.begin_frame d a).2.1, (r.begin_frame d a).2.2)

/-- Run a sequence of cycles, one per acquire outcome. -/
def renderLoop (r : Renderer) (d : DeviceState) :
    List AcquireOutcome → Renderer × DeviceState
  | [] => (r, d)
  | a :: rest => renderLoop (renderCycle r d a).1 (renderCycle r d a).2 rest

/-- The frame-slot index occupied by each successive cycle. -/
def slotSequence (r : Renderer) (d : DeviceState) :
    List AcquireOutcome → List Nat
  | [] => []
  | a :: rest =>
    r.current_frame :: slotSequence (renderCycle r d a).1 (renderCycle r d a).2 rest

/-- Whether an acquire outcome is a success. -/
def AcquireOutcome.isSuccess : AcquireOutcome → Bool
  | .success _ => true
  | _ => false

/-- The events a computation appended beyond the trace of the device state
`d` it started from. -/
def traceDelta (d : DeviceState) (d1 : DeviceState) : List GpuEvent :=
  d1.trace.drop d.trace.length

/-- The events emitted by one `begin_frame` call. -/
def beginFrameDelta (r : Renderer) (d : DeviceState) (a : AcquireOutcome) :
    List GpuEvent :=
  traceDelta d (r.begin_frame d a).2.2

/-- Recognizer for fence-wait events — the only calls that block the CPU
thread on GPU completion. -/
def GpuEvent.isWaitForFences : GpuEvent → Bool
  | .waitForFences _ _ => true
  | _ => false

/-- Recognizer for queue-submission events. -/
def GpuEvent.isQueueSubmit : GpuEvent → Bool
  | .queueSubmit _ _ _ _ _ => true
  | _ => false

/-- Recognizer for present events. -/
def GpuEvent.isQueuePresent : GpuEvent → Bool
  | .queuePresent _ _ _ _ => true
  | _ => false

/-- Recognizer for swapchain-creation events (surface replacement). -/
def GpuEvent.isCreateSwapchain : GpuEvent → Bool
  | .createSwapchain _ _ _ => true
  | _ => false

/-- Recognizer for command-recording events: everything touching the frame's
command buffer. -/
def GpuEvent.isRecording : GpuEvent → Bool
  | .resetCommandBuffer _ => true
  | .beginCommandBuffer _ => true
  | .endCommandBuffer _ => true
  | .pipelineBarrier _ _ _ _ _ _ _ _ => true
  | .beginRendering _ _ => true
  | .endRendering _ => true
  | .setViewport _ _ _ => true
  | .setScissor _ _ _ => true
  | _ => false

/-- Index of the first event satisfying `p`. -/
def idxOfEvent (p : GpuEvent → Bool) : List GpuEvent → Option Nat
  | [] => none
  | e :: rest => if p e then some 0 else (idxOfEvent p rest).map (· + 1)

/-! ## Concrete fixtures for witnesses and counterexamples -/

/-- A fresh device: handle `0` is reserved as the null handle, the driver
grants 2 swapchain images (the default `min_image_count`), and the graphics
queue is handle `0` of the device's queue namespace. -/
def dev0 : DeviceState :=
  { nextHandle := 1, signaledFences := [], swapchainImageCount := 2,
    graphicsQueue := 0, trace := [] }

/-- A surface-format query result offering exactly the preferred sRGB
format. -/
def demoSurfaceFormats : List SurfaceFormat :=
  [{ format := FORMAT_B8G8R8A8_SRGB, color_space := COLOR_SPACE_SRGB_NONLINEAR }]

/-- The demo renderer: an 800×600 window, one graphics queue family. -/
def demoR : Renderer :=
  (Renderer.new dev0 demoSurfaceFormats 100 [0] 800 600).1

/-- The device state after constructing `demoR`. -/
def demoD : DeviceState :=
  (Renderer.new dev0 demoSurfaceFormats 100 [0] 800 600).2

/-- The renderer and device after two successful `begin_frame`/release
cycles: both images are now owned (`images_in_flight = [some f0, some f1]`),
so the third cycle re-acquires an owned image. -/
def demoAfterTwo : Renderer × DeviceState :=
  renderLoop demoR demoD [.success 0, .success 1]

/-- Ten successful acquire outcomes, images rotating round-robin as a FIFO
swapchain with two images serves them. -/
def tenOk : List AcquireOutcome :=
  [.success 0, .success 1, .success 0, .success 1, .success 0,
   .success 1, .success 0, .success 1, .success 0, .success 1]

/-! ## Helper lemmas -/

/-- A `getD` at an in-range index is a member of the list. -/
lemma getD_mem_of_lt {l : List Nat} {n : Nat} (d0 : Nat) (h : n < l.length) :
    l.getD n d0 ∈ l := by
  induction l generalizing n with
  | nil => simp at h
  | cons x xs ih =>
    cases n with
    | zero => simp
    | succ m =>
      right
      exact ih (Nat.lt_of_succ_lt_succ h)

/-- Trace contribution of the image-view creation loop. -/
lemma createImageViews_trace (imgs : List Nat) (d : DeviceState) :
    (createImageViews imgs d).2.trace
      = d.trace ++ (((createImageViews imgs d).1).zip imgs).map
          (fun p => GpuEvent.createImageView p.1 p.2) := by
  induction imgs generalizing d with
  | nil => simp [createImageViews]
  | cons im rest ih =>
    simp [createImageViews, DeviceState.create_image_view, ih]

/-- Trace contribution of the old-view destruction loop. -/
lemma destroyImageViews_trace (views : List Nat) (d : DeviceState) :
    (destroyImageViews views d).trace
      = d.trace ++ views.map GpuEvent.destroyImageView := by
  induction views generalizing d with
  | nil => simp [destroyImageViews]
  | cons v rest ih =>
    simp [destroyImageViews, DeviceState.destroy_image_view, ih]

/-- The events `begin_frame` emits on a successful acquire of image `i`
starting from renderer `r` and device `d` with the rebuild flag clear: the
slot-fence wait, the acquire, the owner-fence wait when image `i` is owned,
the slot-fence reset, then the recording entry actions. -/
def successDelta (r : Renderer) (d : DeviceState) (i : Nat) : List GpuEvent :=
  [.waitForFences [r.frame_sync.get_fence r.current_frame]
     (d.allSignaled [r.frame_sync.get_fence r.current_frame]),
   .acquireNextImage r.swapchain.swapchain
     (r.frame_sync.get_acquire_semaphore r.current_frame)]
  ++ (match r.frame_sync.images_in_flight.getD i none with
      | some f => [GpuEvent.waitForFences [f] (d.allSignaled [f])]
      | none => [])
  ++ [.resetFences [r.frame_sync.get_fence r.current_frame],
      .resetCommandBuffer (r.command_pool.buffers.getD r.current_frame 0),
      .beginCommandBuffer (r.command_pool.buffers.getD r.current_frame 0),
      .pipelineBarrier (r.command_pool.buffers.getD r.current_frame 0)
        (r.swapchain.images.getD i 0) .undefined .colorAttachmentOptimal
        .empty .colorAttachmentWrite .topOfPipe .colorAttachmentOutput,
      .beginRendering (r.command_pool.buffers.getD r.current_frame 0)
        (r.swapchain.image_views.getD i 0),
      .setViewport (r.command_pool.buffers.getD r.current_frame 0)
        r.swapchain.extent.width r.swapchain.extent.height,
      .setScissor (r.command_pool.buffers.getD r.current_frame 0)
        r.swapchain.extent.width r.swapchain.extent.height]

/-- With the rebuild flag set, `begin_frame` makes no device call. -/
lemma beginFrameDelta_rebuild (r : Renderer) (d : DeviceState)
    (a : AcquireOutcome) (hrb : r.needs_rebuild = true) :
    beginFrameDelta r d a = [] := by
  simp [beginFrameDelta, traceDelta, Renderer.begin_frame, hrb]

/-- With the rebuild flag clear, an out-of-date or failed acquire emits only
the slot-fence wait and the acquire call. -/
lemma beginFrameDelta_noFrame (r : Renderer) (d : DeviceState)
    (a : AcquireOutcome) (hrb : r.needs_rebuild = false)
    (ha : a = .errorOutOfDateKhr ∨ a = .otherError) :
    beginFrameDelta r d a
      = [.waitForFences [r.frame_sync.get_fence r.current_frame]
           (d.allSignaled [r.frame_sync.get_fence r.current_frame]),
         .acquireNextImage r.swapchain.swapchain
           (r.frame_sync.get_acquire_semaphore r.current_frame)] := by
  rcases ha with rfl | rfl <;>
    simp [beginFrameDelta, traceDelta, Renderer.begin_frame, hrb,
      FrameSynchronizer.wait_for_frame, FrameSynchronizer.get_fence,
      DeviceState.wait_for_fences, DeviceState.acquire_next_image,
      DeviceState.allSignaled, List.drop_left]

/-- With the rebuild flag clear, a successful acquire emits exactly
`successDelta`. -/
lemma beginFrameDelta_success (r : Renderer) (d : DeviceState) (i : Nat)
    (hrb : r.needs_rebuild = false) :
    beginFrameDelta r d (.success i) = successDelta r d i := by
  cases howner : r.frame_sync.images_in_flight.getD i none with
  | none =>
    simp only [List.getD_eq_getElem?_getD] at howner
    simp [beginFrameDelta, traceDelta, Renderer.begin_frame, hrb, howner,
      successDelta, FrameSynchronizer.wait_for_frame,
      FrameSynchronizer.reset_fence, FrameSynchronizer.get_fence,
      DeviceState.wait_for_fences, DeviceState.acquire_next_image,
      DeviceState.reset_fences, DeviceState.reset_command_buffer,
      DeviceState.begin_command_buffer, RenderContext.transition_image,
      RenderContext.begin_rendering, DeviceState.allSignaled,
      srcAccessMaskFor, dstAccessMaskFor, List.drop_left]
  | some f =>
    simp only [List.getD_eq_getElem?_getD] at howner
    simp [beginFrameDelta, traceDelta, Renderer.begin_frame, hrb, howner,
      successDelta, FrameSynchronizer.wait_for_frame,
      FrameSynchronizer.reset_fence, FrameSynchronizer.get_fence,
      DeviceState.wait_for_fences, DeviceState.acquire_next_image,
      DeviceState.reset_fences, DeviceState.reset_command_buffer,
      DeviceState.begin_command_buffer, RenderContext.transition_image,
      RenderContext.begin_rendering, DeviceState.allSignaled,
      srcAccessMaskFor, dstAccessMaskFor, List.drop_left]

/-! ## Claim theorems -/

/-- C8: calling `handle_resize` with the currently-active swapchain extent
performs no surface replacement — the `Swapchain` component (handle, images,
views, extent) is unchanged and no device call is made. -/
theorem resize_with_current_extent_is_noop (r : Renderer) (d : DeviceState) :
    (r.handle_resize r.swapchain.extent.width r.swapchain.extent.height d).1.swapchain
        = r.swapchain ∧
    (r.handle_resize r.swapchain.extent.width r.swapchain.extent.height d).2 = d := by
  simp [Renderer.handle_resize]

/-- C10: `handle_resize` with a zero width or height never recreates the
swapchain (no device call is made, the `Swapchain` component is unchanged),
while the projection is still rebuilt from the given width and height. -/
theorem zero_extent_never_recreates (r : Renderer) (w h : Nat) (d : DeviceState)
    (hz : w = 0 ∨ h = 0) :
    (r.handle_resize w h d).1.swapchain = r.swapchain ∧
    (r.handle_resize w h d).2 = d ∧
    (r.handle_resize w h d).1.projection
      = .orthographicRh 0 w 0 h (-1) 1 := by
  rcases hz with rfl | rfl <;> simp [Renderer.handle_resize]

/-- C10 witness: `handle_resize(0, 600)` on the demo renderer leaves the
swapchain and device untouched and rebuilds the projection from `(0, 600)`. -/
theorem zero_extent_never_recreates_witness :
    ((0 : Nat) = 0 ∨ (600 : Nat) = 0) ∧
    ((demoR.handle_resize 0 600 demoD).1.swapchain = demoR.swapchain ∧
     (demoR.handle_resize 0 600 demoD).2 = demoD ∧
     (demoR.handle_resize 0 600 demoD).1.projection
       = .orthographicRh 0 0 0 600 (-1) 1) :=
  ⟨Or.inl rfl, zero_extent_never_recreates demoR 0 600 demoD (Or.inl rfl)⟩

/-- C3 counterexample: on the demo renderer (800×600), `handle_resize(1024,
768)` emits a swapchain-creation call during the call itself and changes the
swapchain handle — the presentation surface is replaced inside
`handle_resize`, not deferred — and no deferred-rebuild flag is set. -/
theorem resize_replaces_surface_in_call :
    (traceDelta demoD (demoR.handle_resize 1024 768 demoD).2).countP
        GpuEvent.isCreateSwapchain = 1 ∧
    (demoR.handle_resize 1024 768 demoD).1.swapchain.swapchain
        ≠ demoR.swapchain.swapchain ∧
    (demoR.handle_resize 1024 768 demoD).1.needs_rebuild = demoR.needs_rebuild := by
  decide

/-- C3 amended: `handle_resize(w, h)` with `w, h` positive and different from
the active extent performs the surface recreate immediately, synchronously
running `Swapchain::recreate` during the call; the resulting extent is
`(w, h)` and the deferred-rebuild flag is untouched (nothing is queued for
the next `begin_frame`). -/
theorem resize_recreates_immediately (r : Renderer) (w h : Nat) (d : DeviceState)
    (hw : 0 < w) (hh : 0 < h)
    (hne : w ≠ r.swapchain.extent.width ∨ h ≠ r.swapchain.extent.height) :
    (r.handle_resize w h d).1.swapchain
        = (r.swapchain.recreate { width := w, height := h } d).1 ∧
    (r.handle_resize w h d).2
        = (r.swapchain.recreate { width := w, height := h } d).2 ∧
    (r.handle_resize w h d).1.swapchain.extent = { width := w, height := h } ∧
    (r.handle_resize w h d).1.needs_rebuild = r.needs_rebuild := by
  have hc : 0 < w ∧ 0 < h ∧
      (w ≠ r.swapchain.extent.width ∨ h ≠ r.swapchain.extent.height) :=
    ⟨hw, hh, hne⟩
  simp only [Renderer.handle_resize, if_pos hc]
  simp [Swapchain.recreate, Swapchain.create_swapchain_internal,
    DeviceState.create_swapchain, DeviceState.get_swapchain_images]

/-- C3 amended witness: resizing the demo renderer from 800×600 to 1024×768
runs the recreate during the call and yields the new extent. -/
theorem resize_recreates_immediately_witness :
    ((0 : Nat) < 1024 ∧ (0 : Nat) < 768 ∧
      ((1024 : Nat) ≠ demoR.swapchain.extent.width ∨
       (768 : Nat) ≠ demoR.swapchain.extent.height)) ∧
    ((demoR.handle_resize 1024 768 demoD).1.swapchain
        = (demoR.swapchain.recreate { width := 1024, height := 768 } demoD).1 ∧
     (demoR.handle_resize 1024 768 demoD).2
        = (demoR.swapchain.recreate { width := 1024, height := 768 } demoD).2 ∧
     (demoR.handle_resize 1024 768 demoD).1.swapchain.extent
        = { width := 1024, height := 768 } ∧
     (demoR.handle_resize 1024 768 demoD).1.needs_rebuild
        = demoR.needs_rebuild) :=
  ⟨⟨by decide, by decide, by decide⟩,
   resize_recreates_immediately demoR 1024 768 demoD (by decide) (by decide)
     (by decide)⟩

/-- C1: after a simulated `ERROR_OUT_OF_DATE_KHR` on call `k`, call `k`
returns `None` and sets the deferred-rebuild flag as the claim states; but
call `k+1` merely clears the flag and returns `None` again, touching the
device not at all — no internal surface recreate is performed and no
`FrameHandle` is produced, contradicting the claimed recovery at `k+1`. -/
theorem out_of_date_next_call_does_not_recreate :
    (demoR.begin_frame demoD .errorOutOfDateKhr).1 = none ∧
    (demoR.begin_frame demoD .errorOutOfDateKhr).2.1.needs_rebuild = true ∧
    ((demoR.begin_frame demoD .errorOutOfDateKhr).2.1.begin_frame
        (demoR.begin_frame demoD .errorOutOfDateKhr).2.2 (.success 0)).1
      = none ∧
    ((demoR.begin_frame demoD .errorOutOfDateKhr).2.1.begin_frame
        (demoR.begin_frame demoD .errorOutOfDateKhr).2.2 (.success 0)).2.2
      = (demoR.begin_frame demoD .errorOutOfDateKhr).2.2 ∧
    (traceDelta demoD
        ((demoR.begin_frame demoD .errorOutOfDateKhr).2.1.begin_frame
          (demoR.begin_frame demoD .errorOutOfDateKhr).2.2 (.success 0)).2.2).countP
        GpuEvent.isCreateSwapchain = 0 := by
  decide

/-- C6: `Swapchain::recreate(new_extent)` emits exactly, in order: a
device-idle barrier; creation of the replacement swapchain referencing the
old handle (followed by its image-view creations); a second device-idle
barrier; destruction of the old image views; destruction of the old handle.
The returned state carries the new handle, images, views and extent — the
swap happens before the destruction events, which all come after the second
idle barrier. -/
theorem recreate_ordering (s : Swapchain) (extent : Extent2D) (d : DeviceState) :
    ∃ newHandle newImages newViews,
      (s.recreate extent d).2.trace
        = d.trace ++ [.deviceWaitIdle]
            ++ (.createSwapchain newHandle s.swapchain extent
                 :: (newViews.zip newImages).map
                      (fun p => GpuEvent.createImageView p.1 p.2))
            ++ [.deviceWaitIdle]
            ++ s.image_views.map GpuEvent.destroyImageView
            ++ [.destroySwapchain s.swapchain] ∧
      (s.recreate extent d).1.swapchain = newHandle ∧
      (s.recreate extent d).1.images = newImages ∧
      (s.recreate extent d).1.image_views = newViews ∧
      (s.recreate extent d).1.extent = extent := by
  refine ⟨(s.recreate extent d).1.swapchain, (s.recreate extent d).1.images,
    (s.recreate extent d).1.image_views, ?_, rfl, rfl, rfl, ?_⟩
  · simp [Swapchain.recreate, Swapchain.create_swapchain_internal,
      DeviceState.create_swapchain, DeviceState.get_swapchain_images,
      DeviceState.device_wait_idle, DeviceState.destroy_swapchain,
      destroyImageViews_trace, createImageViews_trace]
  · simp [Swapchain.recreate, Swapchain.create_swapchain_internal,
      DeviceState.create_swapchain, DeviceState.get_swapchain_images]

/-- C2 counterexample: in the demo run, the third `begin_frame` call (which
re-acquires image 0 while that image's owner fence is still recorded)
performs two fence waits, not just the initial `wait_for_frame` — refuting
"no other fence wait occurs inside `begin_frame`". -/
theorem two_fence_waits_in_one_begin_frame :
    (beginFrameDelta demoAfterTwo.1 demoAfterTwo.2 (.success 0)).countP
        GpuEvent.isWaitForFences = 2 := by
  decide

/-- C2 amended: in every `begin_frame` call, each fence wait is either the
initial `wait_for_frame` on the current slot's completion fence or — when
the acquire succeeded with an image whose owner fence is set — the wait on
that owner fence; no other fence wait occurs, and `begin_frame` emits no
submit and no present call. -/
theorem begin_frame_fence_waits (r : Renderer) (d : DeviceState)
    (a : AcquireOutcome) (e : GpuEvent)
    (he : e ∈ beginFrameDelta r d a) :
    (e.isQueueSubmit = false ∧ e.isQueuePresent = false) ∧
    (e.isWaitForFences = true →
      e = .waitForFences [r.frame_sync.get_fence r.current_frame]
            (d.allSignaled [r.frame_sync.get_fence r.current_frame]) ∨
      ∃ i f, a = .success i ∧
        r.frame_sync.images_in_flight.getD i none = some f ∧
        e = .waitForFences [f] (d.allSignaled [f])) := by
  cases hrb : r.needs_rebuild with
  | true =>
    rw [beginFrameDelta_rebuild r d a hrb] at he
    exact absurd he (List.not_mem_nil e)
  | false =>
    cases a with
    | errorOutOfDateKhr =>
      rw [beginFrameDelta_noFrame r d _ hrb (Or.inl rfl)] at he
      rcases List.mem_cons.mp he with rfl | he
      · simp [GpuEvent.isQueueSubmit, GpuEvent.isQueuePresent]
      · rcases List.mem_singleton.mp he with rfl
        simp [GpuEvent.isQueueSubmit, GpuEvent.isQueuePresent,
          GpuEvent.isWaitForFences]
    | otherError =>
      rw [beginFrameDelta_noFrame r d _ hrb (Or.inr rfl)] at he
      rcases List.mem_cons.mp he with rfl | he
      · simp [GpuEvent.isQueueSubmit, GpuEvent.isQueuePresent]
      · rcases List.mem_singleton.mp he with rfl
        simp [GpuEvent.isQueueSubmit, GpuEvent.isQueuePresent,
          GpuEvent.isWaitForFences]
    | success i =>
      rw [beginFrameDelta_success r d i hrb] at he
      unfold successDelta at he
      cases howner : r.frame_sync.images_in_flight.getD i none with
      | none =>
        rw [howner] at he
        simp only [List.mem_append, List.mem_cons, List.mem_singleton,
          List.not_mem_nil, or_false, false_or, List.nil_append] at he
        rcases he with (rfl | rfl) | rfl | rfl | rfl | rfl | rfl | rfl | rfl <;>
          simp [GpuEvent.isQueueSubmit, GpuEvent.isQueuePresent,
            GpuEvent.isWaitForFences]
      | some f =>
        rw [howner] at he
        simp only [List.mem_append, List.mem_cons, List.mem_singleton,
          List.not_mem_nil, or_false, false_or, List.singleton_append] at he
        rcases he with ((rfl | rfl) | rfl) | rfl | rfl | rfl | rfl | rfl | rfl | rfl
        all_goals first
          | exact ⟨by simp [GpuEvent.isQueueSubmit, GpuEvent.isQueuePresent],
              fun _ => Or.inr ⟨i, f, rfl, howner, rfl⟩⟩
          | simp [GpuEvent.isQueueSubmit, GpuEvent.isQueuePresent,
              GpuEvent.isWaitForFences]

/-- C2 amended witness: the owner-fence wait of the demo run's third
`begin_frame` call is one of the two sanctioned wait forms, and is neither a
submit nor a present. -/
theorem begin_frame_fence_waits_witness :
    (GpuEvent.waitForFences [10] true
        ∈ beginFrameDelta demoAfterTwo.1 demoAfterTwo.2 (.success 0)) ∧
    (((GpuEvent.waitForFences [10] true).isQueueSubmit = false ∧
      (GpuEvent.waitForFences [10] true).isQueuePresent = false) ∧
     ((GpuEvent.waitForFences [10] true).isWaitForFences = true →
       GpuEvent.waitForFences [10] true
         = .waitForFences
             [demoAfterTwo.1.frame_sync.get_fence demoAfterTwo.1.current_frame]
             (demoAfterTwo.2.allSignaled
               [demoAfterTwo.1.frame_sync.get_fence demoAfterTwo.1.current_frame]) ∨
       ∃ i f, AcquireOutcome.success 0 = .success i ∧
         demoAfterTwo.1.frame_sync.images_in_flight.getD i none = some f ∧
         GpuEvent.waitForFences [10] true
           = .waitForFences [f] (demoAfterTwo.2.allSignaled [f]))) :=
  ⟨by decide,
   begin_frame_fence_waits demoAfterTwo.1 demoAfterTwo.2 (.success 0)
     (GpuEvent.waitForFences [10] true) (by decide)⟩

/-- C4: when `begin_frame` successfully acquires an image `i` whose owner
fence is set to `f`, the call's event sequence opens with the slot-fence
wait, the acquire, and then the wait on `f` — all before any
command-recording event — and afterwards image `i` is marked as owned by the
current slot's completion fence. -/
theorem owner_fence_waited_before_recording (r : Renderer) (d : DeviceState)
    (i f : Nat) (hrb : r.needs_rebuild = false)
    (howner : r.frame_sync.images_in_flight.getD i none = some f)
    (hlen : i < r.frame_sync.images_in_flight.length) :
    beginFrameDelta r d (.success i)
      = [.waitForFences [r.frame_sync.get_fence r.current_frame]
           (d.allSignaled [r.frame_sync.get_fence r.current_frame]),
         .acquireNextImage r.swapchain.swapchain
           (r.frame_sync.get_acquire_semaphore r.current_frame),
         .waitForFences [f] (d.allSignaled [f])]
        ++ [.resetFences [r.frame_sync.get_fence r.current_frame],
            .resetCommandBuffer (r.command_pool.buffers.getD r.current_frame 0),
            .beginCommandBuffer (r.command_pool.buffers.getD r.current_frame 0),
            .pipelineBarrier (r.command_pool.buffers.getD r.current_frame 0)
              (r.swapchain.images.getD i 0) .undefined .colorAttachmentOptimal
              .empty .colorAttachmentWrite .topOfPipe .colorAttachmentOutput,
            .beginRendering (r.command_pool.buffers.getD r.current_frame 0)
              (r.swapchain.image_views.getD i 0),
            .setViewport (r.command_pool.buffers.getD r.current_frame 0)
              r.swapchain.extent.width r.swapchain.extent.height,
            .setScissor (r.command_pool.buffers.getD r.current_frame 0)
              r.swapchain.extent.width r.swapchain.extent.height] ∧
    ((beginFrameDelta r d (.success i)).take 3).all
        (fun e => !e.isRecording) = true ∧
    (r.begin_frame d (.success i)).2.1.frame_sync.images_in_flight.getD i none
      = some (r.frame_sync.get_fence r.current_frame) := by
  have hdelta := beginFrameDelta_success r d i hrb
  unfold successDelta at hdelta
  rw [howner] at hdelta
  refine ⟨by rw [hdelta]; rfl, by rw [hdelta]; rfl, ?_⟩
  simp [Renderer.begin_frame, hrb, List.getD_eq_getElem?_getD,
    List.getElem?_set_self, hlen]

/-- C4 witness: in the demo run's third call, image 0 is owned by fence 10;
the first three events are non-recording and the image is re-marked as owned
by the current slot's fence. -/
theorem owner_fence_waited_before_recording_witness :
    demoAfterTwo.1.frame_sync.images_in_flight.getD 0 none = some 10 ∧
    ((beginFrameDelta demoAfterTwo.1 demoAfterTwo.2 (.success 0)).take 3).all
        (fun e => !e.isRecording) = true ∧
    (demoAfterTwo.1.begin_frame demoAfterTwo.2 (.success 0)).2.1.frame_sync.images_in_flight.getD 0 none
      = some (demoAfterTwo.1.frame_sync.get_fence demoAfterTwo.1.current_frame) :=
  ⟨by decide,
   (owner_fence_waited_before_recording demoAfterTwo.1 demoAfterTwo.2 0 10
     (by decide) (by decide) (by decide)).2.1,
   (owner_fence_waited_before_recording demoAfterTwo.1 demoAfterTwo.2 0 10
     (by decide) (by decide) (by decide)).2.2⟩

/-- After a successful cycle the slot index has advanced by one modulo `F`,
the rebuild flag stays clear, and `F` itself is unchanged. -/
lemma renderCycle_success_renderer (r : Renderer) (d : DeviceState) (i : Nat)
    (hrb : r.needs_rebuild = false) :
    (renderCycle r d (.success i)).1.current_frame
        = (r.current_frame + 1) % r.frame_sync.max_frames_in_flight ∧
    (renderCycle r d (.success i)).1.needs_rebuild = false ∧
    (renderCycle r d (.success i)).1.frame_sync.max_frames_in_flight
        = r.frame_sync.max_frames_in_flight := by
  simp [renderCycle, Renderer.begin_frame, hrb]

/-- Slot rotation: a run of successful cycles advances the slot index by the
number of cycles, modulo `F`. -/
lemma renderLoop_rotation (acqs : List AcquireOutcome) :
    ∀ (r : Renderer) (d : DeviceState),
      r.needs_rebuild = false →
      r.current_frame < r.frame_sync.max_frames_in_flight →
      (∀ a ∈ acqs, a.isSuccess = true) →
      (renderLoop r d acqs).1.current_frame
        = (r.current_frame + acqs.length) % r.frame_sync.max_frames_in_flight := by
  induction acqs with
  | nil =>
    intro r d _ h2 _
    simpa [renderLoop] using (Nat.mod_eq_of_lt h2).symm
  | cons a rest ih =>
    intro r d h1 h2 h3
    have ha : a.isSuccess = true := h3 a (List.mem_cons_self a rest)
    cases a with
    | errorOutOfDateKhr => simp [AcquireOutcome.isSuccess] at ha
    | otherError => simp [AcquireOutcome.isSuccess] at ha
    | success i =>
      have hc := renderCycle_success_renderer r d i h1
      have hF : 0 < r.frame_sync.max_frames_in_flight :=
        Nat.pos_of_ne_zero fun h0 => by
          rw [h0] at h2; exact Nat.not_lt_zero _ h2
      have hlt : (renderCycle r d (.success i)).1.current_frame
          < (renderCycle r d (.success i)).1.frame_sync.max_frames_in_flight := by
        rw [hc.1, hc.2.2]
        exact Nat.mod_lt _ hF
      have htail := ih (renderCycle r d (.success i)).1
        (renderCycle r d (.success i)).2 hc.2.1 hlt
        (fun b hb => h3 b (List.mem_cons_of_mem _ hb))
      calc (renderLoop r d (.success i :: rest)).1.current_frame
          = (renderLoop (renderCycle r d (.success i)).1
              (renderCycle r d (.success i)).2 rest).1.current_frame := by
            simp [renderLoop]
        _ = ((renderCycle r d (.success i)).1.current_frame + rest.length)
              % (renderCycle r d (.success i)).1.frame_sync.max_frames_in_flight :=
            htail
        _ = ((r.current_frame + 1) % r.frame_sync.max_frames_in_flight + rest.length)
              % r.frame_sync.max_frames_in_flight := by rw [hc.1, hc.2.2]
        _ = (r.current_frame + (rest.length + 1))
              % r.frame_sync.max_frames_in_flight := by
            rw [Nat.mod_add_mod]
            ring_nf
        _ = (r.current_frame + (.success i :: rest : List AcquireOutcome).length)
              % r.frame_sync.max_frames_in_flight := by
            simp

set_option maxRecDepth 100000 in
/-- C7: slot rotation — from a fresh slot 0 with the rebuild flag clear,
after `N` successful `begin_frame`/release cycles the occupied slot index is
`N mod F`; and the concrete end-to-end scenario: `F = 2`, ten cycles on the
demo renderer give slot sequence `0,1,0,1,0,1,0,1,0,1`, exactly ten
submissions and ten presents. -/
theorem slot_rotation_and_ten_cycles :
    (∀ (r : Renderer) (d : DeviceState) (acqs : List AcquireOutcome),
      r.needs_rebuild = false →
      r.current_frame = 0 →
      0 < r.frame_sync.max_frames_in_flight →
      (∀ a ∈ acqs, a.isSuccess = true) →
      (renderLoop r d acqs).1.current_frame
        = acqs.length % r.frame_sync.max_frames_in_flight) ∧
    slotSequence demoR demoD tenOk = [0, 1, 0, 1, 0, 1, 0, 1, 0, 1] ∧
    (renderLoop demoR demoD tenOk).2.trace.countP GpuEvent.isQueueSubmit = 10 ∧
    (renderLoop demoR demoD tenOk).2.trace.countP GpuEvent.isQueuePresent = 10 := by
  refine ⟨?_, by decide, by decide, by decide⟩
  intro r d acqs h1 h2 h3 h4
  have := renderLoop_rotation acqs r d h1 (by rw [h2]; exact h3) h4
  rw [h2] at this
  simpa using this

/-- C7 witness: the general rotation statement instantiated on the demo
renderer with the ten-cycle successful run. -/
theorem slot_rotation_and_ten_cycles_witness :
    (demoR.needs_rebuild = false ∧ demoR.current_frame = 0 ∧
     0 < demoR.frame_sync.max_frames_in_flight ∧
     (∀ a ∈ tenOk, a.isSuccess = true)) ∧
    (renderLoop demoR demoD tenOk).1.current_frame
      = tenOk.length % demoR.frame_sync.max_frames_in_flight :=
  ⟨⟨by decide, by decide, by decide, by decide⟩,
   slot_rotation_and_ten_cycles.1 demoR demoD tenOk (by decide) (by decide)
     (by decide) (by decide)⟩

/-- In the per-frame creation loop: `n` fences come back, previously
signaled fences stay signaled, and every created fence is signaled (the
SIGNALED creation flag). -/
lemma createPerFrameSyncObjects_signaled (n : Nat) :
    ∀ d : DeviceState,
      ((createPerFrameSyncObjects n d).2.1).length = n ∧
      (∀ x ∈ d.signaledFences,
        x ∈ (createPerFrameSyncObjects n d).2.2.signaledFences) ∧
      (∀ f ∈ (createPerFrameSyncObjects n d).2.1,
        f ∈ (createPerFrameSyncObjects n d).2.2.signaledFences) := by
  induction n with
  | zero => intro d; simp [createPerFrameSyncObjects]
  | succ m ih =>
    intro d
    have ihd := ih (d.create_semaphore.2.create_fence true).2
    refine ⟨?_, ?_, ?_⟩
    · simpa [createPerFrameSyncObjects] using ihd.1
    · intro x hx
      have hx2 : x ∈ (d.create_semaphore.2.create_fence true).2.signaledFences := by
        simp [DeviceState.create_semaphore, DeviceState.create_fence]
        exact Or.inr hx
      simpa [createPerFrameSyncObjects] using ihd.2.1 x hx2
    · intro f hf
      simp only [createPerFrameSyncObjects] at hf ⊢
      rcases List.mem_cons.mp hf with rfl | hf
      · have hx2 : (d.create_semaphore.2.create_fence true).1
            ∈ (d.create_semaphore.2.create_fence true).2.signaledFences := by
          simp [DeviceState.create_semaphore, DeviceState.create_fence]
        exact ihd.2.1 _ hx2
      · exact ihd.2.2 f hf

/-- The per-image semaphore loop leaves the signaled-fence set untouched. -/
lemma createPerImageSemaphores_signaled (n : Nat) :
    ∀ d : DeviceState,
      (createPerImageSemaphores n d).2.signaledFences = d.signaledFences := by
  induction n with
  | zero => intro d; simp [createPerImageSemaphores]
  | succ m ih =>
    intro d
    simpa [createPerImageSemaphores, DeviceState.create_semaphore] using
      ih d.create_semaphore.2

/-- C9: every per-slot completion fence is created in the signaled state by
`FrameSynchronizer::new`, so the first `wait_for_frame` on any slot finds
its fence already signaled and returns immediately (the wait event records
`allSignaledAtCall = true`). -/
theorem fences_created_signaled (d : DeviceState) (maxF imgCount slot : Nat)
    (hslot : slot < maxF) :
    (FrameSynchronizer.new d maxF imgCount).1.get_fence slot
      ∈ (FrameSynchronizer.new d maxF imgCount).2.signaledFences ∧
    ((FrameSynchronizer.new d maxF imgCount).1.wait_for_frame slot
        (FrameSynchronizer.new d maxF imgCount).2).trace
      = (FrameSynchronizer.new d maxF imgCount).2.trace
        ++ [.waitForFences
             [(FrameSynchronizer.new d maxF imgCount).1.get_fence slot] true] := by
  have hobjs := createPerFrameSyncObjects_signaled maxF d
  have hmem : (FrameSynchronizer.new d maxF imgCount).1.get_fence slot
      ∈ (FrameSynchronizer.new d maxF imgCount).2.signaledFences := by
    have hfin : (createPerFrameSyncObjects maxF d).2.1.getD slot 0
        ∈ (createPerFrameSyncObjects maxF d).2.1 :=
      getD_mem_of_lt 0 (by rw [hobjs.1]; exact hslot)
    have hs := hobjs.2.2 _ hfin
    simp only [FrameSynchronizer.new, FrameSynchronizer.get_fence,
      createPerImageSemaphores_signaled]
    exact hs
  refine ⟨hmem, ?_⟩
  have hall : (FrameSynchronizer.new d maxF imgCount).2.allSignaled
      [(FrameSynchronizer.new d maxF imgCount).1.get_fence slot] = true := by
    simp [DeviceState.allSignaled]
    exact hmem
  simp [FrameSynchronizer.wait_for_frame, DeviceState.wait_for_fences,
    FrameSynchronizer.get_fence] at hall ⊢
  exact hall

/-- C9 witness: on a fresh device with `F = 2`, slot 0's first
`wait_for_frame` observes an already-signaled fence. -/
theorem fences_created_signaled_witness :
    (0 : Nat) < 2 ∧
    ((FrameSynchronizer.new dev0 2 2).1.get_fence 0
        ∈ (FrameSynchronizer.new dev0 2 2).2.signaledFences ∧
     ((FrameSynchronizer.new dev0 2 2).1.wait_for_frame 0
        (FrameSynchronizer.new dev0 2 2).2).trace
      = (FrameSynchronizer.new dev0 2 2).2.trace
        ++ [.waitForFences [(FrameSynchronizer.new dev0 2 2).1.get_fence 0] true]) :=
  ⟨by decide, fences_created_signaled dev0 2 2 0 (by decide)⟩

/-- C5: whenever `begin_frame` hands out a frame (every non-rebuild call with
a successful acquire of image `i`), releasing that handle — the sole release
path, since `RenderFrame` has no explicit end method — performs exactly, on
any device state: end of the rendering pass, the reverse layout transition
to `PRESENT_SRC_KHR`, end of command recording, a submit waiting on the
slot's acquire semaphore and signaling the acquired image's per-image
render-finished semaphore plus the slot's completion fence, then a present
waiting on that same per-image semaphore. -/
theorem frame_release_submits_and_presents (r : Renderer) (d : DeviceState)
    (i : Nat) (d2 : DeviceState) :
    ((r.begin_frame d (.success i)).1.map fun f =>
        (f.wait_semaphore, f.signal_semaphore, f.fence, (f.drop d2).trace))
      = if r.needs_rebuild then none
        else some
          (r.frame_sync.get_acquire_semaphore r.current_frame,
           r.frame_sync.get_render_finished_semaphore i,
           r.frame_sync.get_fence r.current_frame,
           d2.trace ++
             [.endRendering (r.command_pool.buffers.getD r.current_frame 0),
              .pipelineBarrier (r.command_pool.buffers.getD r.current_frame 0)
                (r.swapchain.images.getD i 0)
                .colorAttachmentOptimal .presentSrcKhr
                .colorAttachmentWrite .empty
                .colorAttachmentOutput .bottomOfPipe,
              .endCommandBuffer (r.command_pool.buffers.getD r.current_frame 0),
              .queueSubmit r.graphics_queue
                [r.frame_sync.get_acquire_semaphore r.current_frame]
                [r.command_pool.buffers.getD r.current_frame 0]
                [r.frame_sync.get_render_finished_semaphore i]
                (r.frame_sync.get_fence r.current_frame),
              .queuePresent r.graphics_queue
                [r.frame_sync.get_render_finished_semaphore i]
                [r.swapchain.swapchain] [i]]) := by
  by_cases hrb : r.needs_rebuild
  · simp [Renderer.begin_frame, hrb]
  · simp [Renderer.begin_frame, hrb, RenderFrame.drop,
      RenderContext.end_rendering, RenderContext.transition_image,
      DeviceState.end_command_buffer, DeviceState.queue_submit,
      DeviceState.queue_present, FrameSynchronizer.get_fence,
      srcAccessMaskFor, dstAccessMaskFor]

end Engine
